import Mathlib

/-!
Verification of the backprop model layer (`backprop/models/generic_models.py`
and `backprop/tasks/text_generation.py`) against its specification.

The Python code is shallowly embedded: keyword-argument dictionaries become
structures whose fields are `Option (Option v)` (`none` = key absent,
`some none` = key present with value `None`, `some (some v)` = key present
with value `v`); floats become rationals; the CUDA runtime, the batch-size
tuner and `trainer.fit` become an explicit environment record; exceptions
become explicit result constructors carrying the object state at raise time.
-/

namespace Backprop

/-! ### Generation parameter resolution (`TextGenerationModel.generate`) -/

/-- The keyword arguments accepted by `TextGenerationModel.generate`
(source lines 324-350).  Each field is `none` when the key is absent,
`some none` when the key is present with value `None`, and `some (some v)`
when present with value `v`. -/
structure GenKwargs where
  min_length : Option (Option ℚ)
  max_length : Option (Option ℚ)
  temperature : Option (Option ℚ)
  top_k : Option (Option ℚ)
  top_p : Option (Option ℚ)
  repetition_penalty : Option (Option ℚ)
  length_penalty : Option (Option ℚ)
  num_beams : Option (Option ℚ)
  num_return_sequences : Option (Option ℚ)
  num_generations : Option (Option ℚ)
  do_sample : Option (Option Bool)
  deriving DecidableEq, Repr

/-- The canonical configuration produced by the resolution steps at the top
of `TextGenerationModel.generate`: the resolved `do_sample` flag (passed as
an explicit argument to `model.generate`) together with the remaining
keyword dictionary. -/
structure ResolvedGen where
  do_sample : Bool
  min_length : Option (Option ℚ)
  max_length : Option (Option ℚ)
  temperature : Option (Option ℚ)
  top_k : Option (Option ℚ)
  top_p : Option (Option ℚ)
  repetition_penalty : Option (Option ℚ)
  length_penalty : Option (Option ℚ)
  num_beams : Option (Option ℚ)
  num_return_sequences : Option (Option ℚ)
  num_generations : Option (Option ℚ)
  deriving DecidableEq, Repr

/-- Embedding of `param in kwargs.keys() and kwargs[param] != None`. -/
def presentNonNull (x : Option (Option ℚ)) : Bool :=
  match x with
  | some (some _) => true
  | _ => false

/-- Embedding of `kwargs.pop("do_sample", None) or False`: the popped value is truthy
exactly when it is present and equal to `True`. -/
def popDoSample (x : Option (Option Bool)) : Bool :=
  match x with
  | some (some b) => b
  | _ => false

/-- Embedding of the parameter-resolution prefix of
`TextGenerationModel.generate` (source lines 328-350):
pop `do_sample` defaulting to `False`; force `do_sample = True` when any
parameter in the sampling list is present and non-`None`; when
`temperature` is present and `== 0.0`, force `do_sample = False` and
delete the temperature key; finally rename a non-`None` `num_generations`
to `num_return_sequences` and delete the `num_generations` key. -/
def resolveGen (k : GenKwargs) : ResolvedGen :=
  let ds0 := popDoSample k.do_sample
  let ds1 :=
    if presentNonNull k.temperature || presentNonNull k.top_k ||
       presentNonNull k.top_p || presentNonNull k.repetition_penalty ||
       presentNonNull k.length_penalty || presentNonNull k.num_beams ||
       presentNonNull k.num_return_sequences || presentNonNull k.num_generations
    then true else ds0
  let tempIsZero : Bool := k.temperature = some (some 0)
  let ds2 := if tempIsZero then false else ds1
  let temp2 := if tempIsZero then none else k.temperature
  let nrs := match k.num_generations with
    | some (some v) => some (some v)
    | _ => k.num_return_sequences
  { do_sample := ds2
    min_length := k.min_length
    max_length := k.max_length
    temperature := temp2
    top_k := k.top_k
    top_p := k.top_p
    repetition_penalty := k.repetition_penalty
    length_penalty := k.length_penalty
    num_beams := k.num_beams
    num_return_sequences := nrs
    num_generations := none }

/-- Embedding of `kwargs.get("num_return_sequences", 1) == 1` (source line 380): the
per-item output collapses from a one-element list to a scalar exactly when
this holds.  A key present with value `None` compares unequal to `1`. -/
def unwrapSingle (r : ResolvedGen) : Bool :=
  match r.num_return_sequences with
  | some v => v = some 1
  | none => true

/-! ### Finetuning orchestration (`Finetunable.finetune`) -/

/-- The configuration of a `pytorch_lightning.Trainer` as far as the
orchestrator sets it (source lines 76-91): either the caller's own trainer
(`custom = true`) or the default trainer built from `trainer_kwargs`. -/
structure TrainerCfg where
  custom : Bool
  max_epochs : Option ℕ
  accumulate_grad_batches : Option ℕ
  has_early_stopping_callback : Bool
  deriving DecidableEq, Repr

/-- The mutable attributes of a `Finetunable` model object that
`Finetunable.finetune` reads or writes, over an abstract type `α` of
encoded dataset examples.  `dataset_train`/`dataset_valid` are `none` when
the attribute is unset or has been `del`eted. -/
structure FTState (α : Type) where
  batch_size : ℕ
  dataset_train : Option (List α)
  dataset_valid : Option (List α)
  model_train_mode : Bool
  model_device : String
  saved_device : String
  deriving DecidableEq, Repr

/-- The arguments of `Finetunable.finetune` (source lines 51-52) with their
declared defaults, minus the dataset (passed separately). -/
structure FinetuneArgs where
  validation_split : ℚ := 15 / 100
  epochs : ℕ := 20
  batch_size : Option ℕ := none
  optimal_batch_size : Option ℕ := none
  early_stopping : Bool := true
  trainer : Option TrainerCfg := none
  deriving DecidableEq, Repr

/-- The external collaborators of one `finetune` call: CUDA availability,
the batch size that the tuning probe would store in `self.batch_size`, and
the behaviour of `trainer.fit` (whether it returns normally, and which
device the model object ends up on when `fit` finishes or raises). -/
structure FTEnv where
  cuda_available : Bool
  discovered_batch_size : ℕ
  fit_ok : Bool
  fit_device : String
  deriving DecidableEq, Repr

/-- What reached `trainer.fit`: the trainer configuration in use and the
per-step batch size (`self.batch_size`, read by `train_dataloader` /
`val_dataloader`, source lines 105-113). -/
structure FitRecord where
  trainer : TrainerCfg
  per_step_batch_size : ℕ
  deriving DecidableEq, Repr

/-- The outcome of a `Finetunable.finetune` call, carrying the object state
at the point where the call returns or the exception propagates. -/
inductive FTResult (α : Type) where
  | raisedNoCuda (s : FTState α)
  | raisedFit (s : FTState α) (fit : FitRecord)
  | ok (s : FTState α) (fit : FitRecord)
  deriving DecidableEq, Repr

/-- Embedding of `self.batch_size = batch_size or 1` (source line 53): `None` and `0`
are falsy. -/
def initialBatch (b : Option ℕ) : ℕ :=
  match b with
  | some n => if n = 0 then 1 else n
  | none => 1

/-- Embedding of `len_train = int(len(dataset) * (1 - validation_split))` (source line
58); for a split in `[0, 1]` Python's truncation agrees with the floor. -/
def lenTrain (n : ℕ) (validation_split : ℚ) : ℕ :=
  (((n : ℚ) * (1 - validation_split)).floor).toNat

/-- Embedding of `Finetunable.finetune` (source lines 51-103):
store `batch_size or 1`; raise unless CUDA is available; split the dataset;
tune the batch size when the caller passed `batch_size=None`; derive
`accumulate_grad_batches` from a truthy `optimal_batch_size`; add the early
stopping callback; build the default trainer unless one was supplied; put
the model in train mode and run `fit`; on normal return delete the dataset
partitions, move the model back to `self._model_device` and switch it to
eval mode.  There is no `try`/`finally`: when `fit` raises, the exception
propagates with none of the post-`fit` statements executed. -/
def finetunableFinetune {α : Type} (s0 : FTState α) (dataset : List α)
    (a : FinetuneArgs) (env : FTEnv) : FTResult α :=
  let s1 := { s0 with batch_size := initialBatch a.batch_size }
  if !env.cuda_available then .raisedNoCuda s1
  else
    let lt := lenTrain dataset.length a.validation_split
    let s2 := { s1 with
      dataset_train := some (dataset.take lt)
      dataset_valid := some (dataset.drop lt) }
    let s3 := if a.batch_size = none
      then { s2 with batch_size := env.discovered_batch_size } else s2
    let acc : Option ℕ :=
      match a.optimal_batch_size with
      | some o =>
          if o = 0 then none
          else some (max 1 (o / min s3.batch_size o))
      | none => none
    let trainerUsed : TrainerCfg :=
      match a.trainer with
      | some t => t
      | none =>
          { custom := false
            max_epochs := some a.epochs
            accumulate_grad_batches := acc
            has_early_stopping_callback := a.early_stopping }
    let s4 := { s3 with model_train_mode := true }
    let fitRec : FitRecord := ⟨trainerUsed, s4.batch_size⟩
    if !env.fit_ok then
      .raisedFit { s4 with model_device := env.fit_device } fitRec
    else
      let s5 := { s4 with
        model_device := env.fit_device
        dataset_train := none
        dataset_valid := none }
      .ok { s5 with model_device := s5.saved_device, model_train_mode := false } fitRec

/-- The object state carried by an exceptional outcome, if any. -/
def FTResult.exceptionState {α : Type} : FTResult α → Option (FTState α)
  | .raisedNoCuda s => some s
  | .raisedFit s _ => some s
  | .ok _ _ => none

/-- The fit record of an outcome that reached `trainer.fit`, if any. -/
def FTResult.fitRecord {α : Type} : FTResult α → Option FitRecord
  | .raisedNoCuda _ => none
  | .raisedFit _ f => some f
  | .ok _ f => some f

/-- The object state carried by a normal return, if any. -/
def FTResult.okState {α : Type} : FTResult α → Option (FTState α)
  | .raisedNoCuda _ => none
  | .raisedFit _ _ => none
  | .ok s _ => some s

/-- Whether, relative to the pre-call state `s0`, the outcome `r` left the
model in evaluation mode, on its pre-call device, with both dataset
partitions discarded — for outcomes that reached the training phase.  This
is exactly the cleanup condition of the specification. -/
def cleanupRestored {α : Type} [DecidableEq α] (s0 : FTState α) (r : FTResult α) : Bool :=
  match r with
  | .raisedNoCuda _ => true
  | .raisedFit s _ =>
      !s.model_train_mode && (s.model_device == s0.model_device) &&
        s.dataset_train.isNone && s.dataset_valid.isNone
  | .ok s _ =>
      !s.model_train_mode && (s.model_device == s0.model_device) &&
        s.dataset_train.isNone && s.dataset_valid.isNone

/-! ### Vectorisation finetuning (`TextVectorisationModel.finetune`) -/

/-- One encoded example of the vectorisation task (source lines 254-269):
token ids and attention masks of both pair members plus the target score. -/
structure TVEncoded where
  input_ids1 : List ℕ
  attention_mask1 : List ℕ
  input_ids2 : List ℕ
  attention_mask2 : List ℕ
  scores : ℚ
  deriving DecidableEq, Repr

/-- Embedding of `encode_input` (source lines 261-266): tokenize both members of the
pair independently.  The tokenizer is an external collaborator, abstracted
as a function from text and maximum length to (input ids, attention mask). -/
def tvEncodeInput (tok : String → ℕ → List ℕ × List ℕ)
    (text_pair : String × String) (max_length : ℕ) :
    (List ℕ × List ℕ) × (List ℕ × List ℕ) :=
  (tok text_pair.1 max_length, tok text_pair.2 max_length)

/-- Embedding of `encode` (source lines 254-259): merge `encode_input` of the pair with
`encode_output` of the similarity score. -/
def tvEncode (tok : String → ℕ → List ℕ × List ℕ)
    (row : (String × String) × ℚ) (max_input_length : ℕ) : TVEncoded :=
  let inp := tvEncodeInput tok row.1 max_input_length
  { input_ids1 := inp.1.1, attention_mask1 := inp.1.2,
    input_ids2 := inp.2.1, attention_mask2 := inp.2.2, scores := row.2 }

/-- The keyword arguments of `TextVectorisationModel.finetune` (source
lines 271-275) with their declared defaults. -/
structure TVFinetuneArgs where
  max_input_length : ℕ := 64
  validation_split : ℚ := 15 / 100
  epochs : ℕ := 20
  batch_size : Option ℕ := none
  early_stopping : Bool := true
  trainer : Option TrainerCfg := none
  deriving DecidableEq, Repr

/-- Outcome of `TextVectorisationModel.finetune`: the length-mismatch
assertion fires, or the call delegates to `Finetunable.finetune`, recording
the argument record the delegate actually received. -/
inductive TVFResult where
  | assertError
  | delegated (passed : FinetuneArgs) (r : FTResult TVEncoded)
  deriving DecidableEq, Repr

/-- Embedding of `TextVectorisationModel.finetune` (source lines 271-314):
assert matching list lengths, encode the zipped dataset, then call
`Finetunable.finetune(self, dataset)` — positionally, with only the
dataset, so the delegate runs with its own declared defaults.  The local
constant `OPTIMAL_BATCH_SIZE = 128` (source line 308) is never used. -/
def textVecFinetune (tok : String → ℕ → List ℕ × List ℕ)
    (s0 : FTState TVEncoded) (text_pairs : List (String × String))
    (similarity_scores : List ℚ) (a : TVFinetuneArgs) (env : FTEnv) : TVFResult :=
  if text_pairs.length ≠ similarity_scores.length then .assertError
  else
    let dataset := (text_pairs.zip similarity_scores).map
      (fun r => tvEncode tok r a.max_input_length)
    let passed : FinetuneArgs := {}
    .delegated passed (finetunableFinetune s0 dataset passed env)

/-- The argument record that reached `Finetunable.finetune`, if any. -/
def TVFResult.passedArgs : TVFResult → Option FinetuneArgs
  | .assertError => none
  | .delegated passed _ => some passed

/-! ### Zero-shot classification (`ClassificationModel`) -/

/-- Two-class softmax over a pair of logits, over an abstract exponential
`expf` (the float `exp` of the source's `softmax(dim=1)`). -/
def softmax2 (expf : ℚ → ℚ) (a b : ℚ) : ℚ × ℚ :=
  (expf a / (expf a + expf b), expf b / (expf a + expf b))

/-- Embedding of `ClassificationModel.calculate_probability` (source lines
414-422): build the hypothesis `"This example is <label>."`, run the
forward pass (tokenizer and model abstracted as `modelLogits`, mapping text
and hypothesis to the three logits of the single row), keep columns 0 and
2, softmax over the two, return the second entry (the entailment
probability, column 2 of the original logits). -/
def calculate_probability (expf : ℚ → ℚ)
    (modelLogits : String → String → ℚ × ℚ × ℚ) (text label : String) : ℚ :=
  let hyp := "This example is " ++ label ++ "."
  let logits := modelLogits text hyp
  let entail_contradiction := (logits.1, logits.2.2)
  (softmax2 expf entail_contradiction.1 entail_contradiction.2).2

/-- An insertion-ordered string-keyed dictionary update, as Python dicts
behave: an existing key keeps its position and gets the new value, a new
key is appended. -/
def dictInsert (d : List (String × ℚ)) (k : String) (v : ℚ) : List (String × ℚ) :=
  if d.any (fun p => p.1 == k) then d.map (fun p => if p.1 == k then (k, v) else p)
  else d ++ [(k, v)]

/-- Embedding of the single-text branch of `ClassificationModel.classify`
(source lines 442-448): one `calculate_probability` call per label, results
collected into a dict in label order. -/
def classifySingle (expf : ℚ → ℚ)
    (modelLogits : String → String → ℚ × ℚ × ℚ) (text : String)
    (labels : List String) : List (String × ℚ) :=
  labels.foldl
    (fun d label => dictInsert d label (calculate_probability expf modelLogits text label)) []

/-! ### Text-generation task facade (`tasks/text_generation.py`) -/

/-- The JSON body returned by the remote text-generation endpoint, as far
as `TextGeneration.__call__` reads it: an optional `message` field and an
optional `output` field. -/
structure TGResponse where
  message : Option String
  output : Option String
  deriving DecidableEq, Repr

/-- Outcome of the remote branch of `TextGeneration.__call__` on a
response: the API-error exception, the output value, or a `KeyError` when
`output` is absent and `message` is not truthy. -/
inductive TGCallOutcome where
  | raisedAPIError (msg : String)
  | returnedOutput (v : String)
  | raisedKeyError
  deriving DecidableEq, Repr

/-- Python truthiness of `res.get("message")`: present and non-empty. -/
def truthyStr (m : Option String) : Bool :=
  match m with
  | some s => s ≠ ""
  | none => false

/-- Embedding of the response handling of `TextGeneration.__call__`
(source lines 88-91): `if res.get("message"): raise ...` else return
`res["output"]`. -/
def handleTGResponse (res : TGResponse) : TGCallOutcome :=
  if truthyStr res.message then
    .raisedAPIError ("Failed to make API request: " ++ res.message.getD "")
  else
    match res.output with
    | some v => .returnedOutput v
    | none => .raisedKeyError

/-- The constant `FINETUNABLE_MODELS` (source line 17 of `text_generation.py`). -/
def FINETUNABLE_MODELS : List String := ["t5", "t5-base-qa-summary-emotion"]

/-- Which of the two required parameter keys was reported missing. -/
inductive MissingKey where
  | input_text
  | output_text
  deriving DecidableEq, Repr

/-- The `params` dictionary of `TextGeneration.finetune`, as far as the
method inspects it: whether each required key is present. -/
structure TGFinetuneParams where
  has_input_text : Bool
  has_output_text : Bool
  deriving DecidableEq, Repr

/-- Behaviour of the underlying `self.model.finetune` delegate: it returns
normally, raises `NotImplementedError`, or raises some other exception. -/
inductive DelegateBehavior where
  | ok
  | notImplemented
  | otherError (e : String)
  deriving DecidableEq, Repr

/-- Outcome of `TextGeneration.finetune`: an early `return None` after a
printed hint, the delegate's normal return, the re-raised
`NotImplementedError` with the remediation message, or a propagated other
exception. -/
inductive TGFinetuneOutcome where
  | returnedNone (printed : MissingKey)
  | delegateReturned
  | raisedNotImplemented (msg : String)
  | raisedOther (e : String)
  deriving DecidableEq, Repr

/-- Embedding of `TextGeneration.finetune` (source lines 93-111): return
`None` (printing a hint) when `input_text` or `output_text` is missing;
otherwise call the model's finetune, turning a `NotImplementedError` into
one that names the finetunable model variants. -/
def tgFinetune (params : TGFinetuneParams) (delegate : DelegateBehavior) :
    TGFinetuneOutcome :=
  if !params.has_input_text then .returnedNone .input_text
  else if !params.has_output_text then .returnedNone .output_text
  else
    match delegate with
    | .ok => .delegateReturned
    | .notImplemented =>
        .raisedNotImplemented
          ("This model does not support finetuning, try: " ++
            String.intercalate ", " FINETUNABLE_MODELS)
    | .otherError e => .raisedOther e

/-! ### Concrete instances used by witnesses and counterexamples -/

/-- A concrete generation option set: `temperature = 0.0`, `top_k = 40`,
caller-supplied `do_sample = True`. -/
def genKwargsTempZero : GenKwargs :=
  { min_length := none, max_length := none, temperature := some (some 0),
    top_k := some (some 40), top_p := none, repetition_penalty := none,
    length_penalty := none, num_beams := none, num_return_sequences := none,
    num_generations := none, do_sample := some (some true) }

/-- A concrete generation option set: absent temperature, `top_p = 0.9`,
caller-supplied `do_sample = False`. -/
def genKwargsTopP : GenKwargs :=
  { min_length := none, max_length := none, temperature := none,
    top_k := none, top_p := some (some (9 / 10)), repetition_penalty := none,
    length_penalty := none, num_beams := none, num_return_sequences := none,
    num_generations := none, do_sample := some (some false) }

/-- A pre-finetune model state: evaluation mode, on `"cuda"`, stored
device attribute agreeing, no partitions set. -/
def ftState0 : FTState ℕ :=
  { batch_size := 1, dataset_train := none, dataset_valid := none,
    model_train_mode := false, model_device := "cuda", saved_device := "cuda" }

/-- An environment without a CUDA device. -/
def ftEnvNoCuda : FTEnv :=
  { cuda_available := false, discovered_batch_size := 16, fit_ok := true,
    fit_device := "cuda" }

/-- An environment with CUDA, a discovered batch size of 16, and a
`trainer.fit` that returns normally but leaves the model on the CPU. -/
def ftEnvFitOk : FTEnv :=
  { cuda_available := true, discovered_batch_size := 16, fit_ok := true,
    fit_device := "cpu" }

/-- An environment with CUDA whose `trainer.fit` raises. -/
def ftEnvFitFails : FTEnv :=
  { cuda_available := true, discovered_batch_size := 16, fit_ok := false,
    fit_device := "cuda" }

/-- A pre-finetune state of the vectorisation model. -/
def tvState0 : FTState TVEncoded :=
  { batch_size := 1, dataset_train := none, dataset_valid := none,
    model_train_mode := false, model_device := "cuda", saved_device := "cuda" }

/-- A concrete tokenizer collaborator. -/
def tvTok : String → ℕ → List ℕ × List ℕ :=
  fun s n => (List.replicate n s.length, List.replicate n 1)

/-- A caller of `TextVectorisationModel.finetune` overriding every default:
`validation_split = 0.5`, `epochs = 5`, `batch_size = 4`,
`early_stopping = False` and a custom trainer. -/
def tvArgsNonDefault : TVFinetuneArgs :=
  { max_input_length := 32, validation_split := 1 / 2, epochs := 5,
    batch_size := some 4, early_stopping := false,
    trainer := some { custom := true, max_epochs := some 7,
                      accumulate_grad_batches := none,
                      has_early_stopping_callback := false } }

/-- A constant positive stand-in for the exponential collaborator. -/
def constExp : ℚ → ℚ := fun _ => 1

/-- A constant stand-in for the classification forward pass. -/
def zeroLogits : String → String → ℚ × ℚ × ℚ := fun _ _ => (0, 0, 0)

/-- A failing remote response. -/
def tgResFailed : TGResponse := { message := some "invalid api key", output := none }

/-- A successful remote response. -/
def tgResOk : TGResponse := { message := none, output := some "hello world" }

/-! ### Theorems -/

/-- C4: whenever the `temperature` option is present with value exactly
`0.0`, the resolved configuration has `do_sample = false` and contains no
temperature key, whatever the other options and the caller's `do_sample`. -/
theorem C4_temperature_zero_forces_greedy (k : GenKwargs)
    (h : k.temperature = some (some 0)) :
    (resolveGen k).do_sample = false ∧ (resolveGen k).temperature = none := by
  simp [resolveGen, h]

/-- Witness for C4 at a concrete option set with `temperature = 0.0`,
`top_k = 40` and caller-supplied `do_sample = True`. -/
theorem C4_witness :
    genKwargsTempZero.temperature = some (some 0) ∧
    ((resolveGen genKwargsTempZero).do_sample = false ∧
     (resolveGen genKwargsTempZero).temperature = none) :=
  ⟨rfl, C4_temperature_zero_forces_greedy genKwargsTempZero rfl⟩

/-- C5: when at least one of `top_k`, `top_p`, `repetition_penalty`,
`length_penalty`, `num_beams`, `num_return_sequences`, `num_generations`
is present and non-`None`, and `temperature` is not present with value
exactly `0.0`, the resolved `do_sample` is `true`, whatever the caller's
`do_sample`. -/
theorem C5_sampling_param_forces_sample (k : GenKwargs)
    (hp : presentNonNull k.top_k = true ∨ presentNonNull k.top_p = true ∨
          presentNonNull k.repetition_penalty = true ∨
          presentNonNull k.length_penalty = true ∨
          presentNonNull k.num_beams = true ∨
          presentNonNull k.num_return_sequences = true ∨
          presentNonNull k.num_generations = true)
    (ht : k.temperature ≠ some (some 0)) :
    (resolveGen k).do_sample = true := by
  rcases hp with h | h | h | h | h | h | h <;> simp [resolveGen, h, ht]

/-- Witness for C5 at a concrete option set with `top_p = 0.9`, absent
temperature and caller-supplied `do_sample = False`. -/
theorem C5_witness :
    presentNonNull genKwargsTopP.top_p = true ∧
    genKwargsTopP.temperature ≠ some (some 0) ∧
    (resolveGen genKwargsTopP).do_sample = true :=
  ⟨rfl, by decide,
    C5_sampling_param_forces_sample genKwargsTopP (Or.inr (Or.inl rfl)) (by decide)⟩

/-- C6: over an otherwise-identical option set, supplying
`num_generations = N` and supplying `num_return_sequences = N` resolve to
the same configuration; the resolved configuration never contains a
`num_generations` key; and the single-candidate output unwrapping decision
agrees between the two. -/
theorem C6_num_generations_alias (k : GenKwargs) (N : ℚ) :
    resolveGen { k with num_generations := some (some N), num_return_sequences := none } =
      resolveGen { k with num_generations := none, num_return_sequences := some (some N) } ∧
    (resolveGen k).num_generations = none ∧
    unwrapSingle (resolveGen { k with num_generations := some (some N), num_return_sequences := none }) =
      unwrapSingle (resolveGen { k with num_generations := none, num_return_sequences := some (some N) }) := by
  refine ⟨?_, by simp [resolveGen], ?_⟩ <;>
    simp [resolveGen, unwrapSingle, presentNonNull]

/-- C7: without a CUDA device, `finetune` raises before the dataset split:
the raised-time state is the pre-call state with only `self.batch_size`
updated, so in particular both partitions are exactly as before the call. -/
theorem C7_no_cuda_raises_before_split {α : Type} (s0 : FTState α)
    (dataset : List α) (a : FinetuneArgs) (env : FTEnv)
    (h : env.cuda_available = false) :
    finetunableFinetune s0 dataset a env =
      .raisedNoCuda { s0 with batch_size := initialBatch a.batch_size } ∧
    (finetunableFinetune s0 dataset a env).exceptionState.map FTState.dataset_train
      = some s0.dataset_train ∧
    (finetunableFinetune s0 dataset a env).exceptionState.map FTState.dataset_valid
      = some s0.dataset_valid := by
  simp [finetunableFinetune, h, FTResult.exceptionState]

/-- Witness for C7: a concrete call on a CUDA-less environment raises with
the partitions untouched. -/
theorem C7_witness :
    ftEnvNoCuda.cuda_available = false ∧
    (finetunableFinetune ftState0 [10, 11, 12, 13] { } ftEnvNoCuda =
      .raisedNoCuda { ftState0 with batch_size := initialBatch ({ } : FinetuneArgs).batch_size } ∧
    (finetunableFinetune ftState0 [10, 11, 12, 13] { } ftEnvNoCuda).exceptionState.map
        FTState.dataset_train = some ftState0.dataset_train ∧
    (finetunableFinetune ftState0 [10, 11, 12, 13] { } ftEnvNoCuda).exceptionState.map
        FTState.dataset_valid = some ftState0.dataset_valid) :=
  ⟨rfl, C7_no_cuda_raises_before_split ftState0 [10, 11, 12, 13] { } ftEnvNoCuda rfl⟩

/-- The accumulation expression of source line 81 rewritten without the
`min` of line 80, for a truthy `optimal_batch_size`. -/
theorem accum_min_div (o b : ℕ) (ho : o ≠ 0) :
    max 1 (o / min b o) = max 1 (o / b) := by
  rcases le_or_lt b o with h | h
  · rw [min_eq_left h]
  · rw [min_eq_right h.le, Nat.div_self (Nat.pos_of_ne_zero ho),
      Nat.div_eq_of_lt h]
    decide

/-- C3: with a truthy `optimal_batch_size = o` and a discovered or
explicitly given batch size `b` (and the default trainer), the trainer is
configured with `accumulate_grad_batches = max 1 (o / b)` — floor
division — and the per-step batch size that reaches the dataloaders is
exactly `b`, hence never exceeds it. -/
theorem C3_accumulation {α : Type} (s0 : FTState α) (dataset : List α)
    (a : FinetuneArgs) (env : FTEnv) (o b : ℕ)
    (hc : env.cuda_available = true) (hopt : a.optimal_batch_size = some o)
    (ho : o ≠ 0) (htr : a.trainer = none)
    (hb : (a.batch_size = some b ∧ b ≠ 0) ∨
          (a.batch_size = none ∧ env.discovered_batch_size = b)) :
    (finetunableFinetune s0 dataset a env).fitRecord.map
        (fun r => r.trainer.accumulate_grad_batches) = some (some (max 1 (o / b))) ∧
    (finetunableFinetune s0 dataset a env).fitRecord.map
        FitRecord.per_step_batch_size = some b := by
  rcases hb with ⟨hbs, hb0⟩ | ⟨hbs, hdisc⟩
  · cases hf : env.fit_ok <;>
      simp [finetunableFinetune, hc, hopt, ho, htr, hbs, hf,
        initialBatch, hb0, FTResult.fitRecord, accum_min_div o b ho]
  · cases hf : env.fit_ok <;>
      simp [finetunableFinetune, hc, hopt, ho, htr, hbs, hf, hdisc,
        initialBatch, FTResult.fitRecord, accum_min_div o b ho]

/-- Witness for C3 at the two numeric instances of the claim:
`batch_size = 8, optimal_batch_size = 128` gives accumulation `16`, and
`batch_size = 8, optimal_batch_size = 4` gives accumulation `1`; the
per-step batch size stays `8` in both runs. -/
theorem C3_witness :
    ftEnvFitOk.cuda_available = true ∧
    (finetunableFinetune ftState0 [10, 11, 12, 13]
        { batch_size := some 8, optimal_batch_size := some 128 } ftEnvFitOk).fitRecord.map
        (fun r => r.trainer.accumulate_grad_batches) = some (some 16) ∧
    (finetunableFinetune ftState0 [10, 11, 12, 13]
        { batch_size := some 8, optimal_batch_size := some 128 } ftEnvFitOk).fitRecord.map
        FitRecord.per_step_batch_size = some 8 ∧
    (finetunableFinetune ftState0 [10, 11, 12, 13]
        { batch_size := some 8, optimal_batch_size := some 4 } ftEnvFitOk).fitRecord.map
        (fun r => r.trainer.accumulate_grad_batches) = some (some 1) ∧
    (finetunableFinetune ftState0 [10, 11, 12, 13]
        { batch_size := some 8, optimal_batch_size := some 4 } ftEnvFitOk).fitRecord.map
        FitRecord.per_step_batch_size = some 8 := by
  refine ⟨rfl, ?_, ?_, ?_, ?_⟩
  · exact (C3_accumulation ftState0 [10, 11, 12, 13] _ ftEnvFitOk 128 8 rfl rfl
      (by decide) rfl (Or.inl ⟨rfl, by decide⟩)).1
  · exact (C3_accumulation ftState0 [10, 11, 12, 13] _ ftEnvFitOk 128 8 rfl rfl
      (by decide) rfl (Or.inl ⟨rfl, by decide⟩)).2
  · exact (C3_accumulation ftState0 [10, 11, 12, 13] _ ftEnvFitOk 4 8 rfl rfl
      (by decide) rfl (Or.inl ⟨rfl, by decide⟩)).1
  · exact (C3_accumulation ftState0 [10, 11, 12, 13] _ ftEnvFitOk 4 8 rfl rfl
      (by decide) rfl (Or.inl ⟨rfl, by decide⟩)).2

/-- C1 (counterexample): a concrete finetune call that reaches the
training phase and whose `trainer.fit` raises propagates the exception
with the model still in training mode and the partitions still set —
`finetune` has no `try`/`finally`, so the cleanup of source lines 96-102
is skipped on failure.  The claimed post-condition is therefore false. -/
theorem C1_counterexample :
    cleanupRestored ftState0
      (finetunableFinetune ftState0 [10, 11, 12, 13] { } ftEnvFitFails) = false := by
  decide

/-- C1 (amended): for a finetune call that reaches the training phase,
when `trainer.fit` returns normally the model ends in evaluation mode on
its pre-call (stored) device with both partitions discarded; when
`trainer.fit` raises, the exception propagates with the model still in
training mode and both partitions still set. -/
theorem C1_cleanup_only_on_success {α : Type} (s0 : FTState α)
    (dataset : List α) (a : FinetuneArgs) (env : FTEnv)
    (hc : env.cuda_available = true) (hd : s0.saved_device = s0.model_device) :
    (env.fit_ok = true →
      (finetunableFinetune s0 dataset a env).okState.map
          (fun s => (s.model_train_mode, s.model_device, s.dataset_train, s.dataset_valid))
        = some (false, s0.model_device, none, none)) ∧
    (env.fit_ok = false →
      (finetunableFinetune s0 dataset a env).exceptionState.map
          (fun s => (s.model_train_mode, s.dataset_train.isSome, s.dataset_valid.isSome))
        = some (true, true, true)) := by
  constructor <;> intro hf <;> cases hbs : a.batch_size <;>
    simp [finetunableFinetune, hc, hf, hd, hbs, FTResult.okState,
      FTResult.exceptionState]

/-- Witness for C1 at two concrete runs: a successful one (whose `fit`
leaves the model on the CPU; cleanup restores it to `"cuda"` and discards
the partitions) and a failing one (which propagates in training mode with
partitions set). -/
theorem C1_witness :
    ftEnvFitOk.cuda_available = true ∧ ftState0.saved_device = ftState0.model_device ∧
    (finetunableFinetune ftState0 [10, 11, 12, 13] { } ftEnvFitOk).okState.map
        (fun s => (s.model_train_mode, s.model_device, s.dataset_train, s.dataset_valid))
      = some (false, ftState0.model_device, none, none) ∧
    (finetunableFinetune ftState0 [10, 11, 12, 13] { } ftEnvFitFails).exceptionState.map
        (fun s => (s.model_train_mode, s.dataset_train.isSome, s.dataset_valid.isSome))
      = some (true, true, true) :=
  ⟨rfl, rfl,
    (C1_cleanup_only_on_success ftState0 [10, 11, 12, 13] { } ftEnvFitOk rfl rfl).1 rfl,
    (C1_cleanup_only_on_success ftState0 [10, 11, 12, 13] { } ftEnvFitFails rfl rfl).2 rfl⟩

/-- C2 (code bug, evaluated at the failing input): a vectorisation
finetune call overriding every lifecycle default delegates to
`Finetunable.finetune` with the built-in defaults — `validation_split`,
`epochs`, `batch_size`, `early_stopping` and `trainer` supplied by the
caller are all dropped by the positional call of source line 314, and no
`optimal_batch_size` is forwarded. -/
theorem C2_delegate_receives_defaults :
    (textVecFinetune tvTok tvState0
        [("hello there", "hi there"), ("how are you", "where is my wallet?")]
        [1, 0] tvArgsNonDefault ftEnvFitOk).passedArgs = some { } ∧
    ({ } : FinetuneArgs).validation_split = 15 / 100 ∧
    tvArgsNonDefault.validation_split = 1 / 2 ∧
    ({ } : FinetuneArgs).epochs = 20 ∧ tvArgsNonDefault.epochs = 5 ∧
    ({ } : FinetuneArgs).batch_size = none ∧ tvArgsNonDefault.batch_size = some 4 ∧
    ({ } : FinetuneArgs).early_stopping = true ∧ tvArgsNonDefault.early_stopping = false ∧
    ({ } : FinetuneArgs).trainer = none ∧ tvArgsNonDefault.trainer ≠ none ∧
    ({ } : FinetuneArgs).optimal_batch_size = none := by
  refine ⟨rfl, rfl, rfl, rfl, rfl, rfl, rfl, rfl, rfl, rfl, ?_, rfl⟩
  simp [tvArgsNonDefault]

/-- Folding `dictInsert` over labels that are new to the accumulator and
mutually distinct appends one entry per label, in label order. -/
theorem classify_foldl_fresh (expf : ℚ → ℚ) (ml : String → String → ℚ × ℚ × ℚ)
    (text : String) (labels : List String) (d : List (String × ℚ))
    (hfresh : ∀ l ∈ labels, ∀ p ∈ d, p.1 ≠ l) (hnd : labels.Nodup) :
    labels.foldl
        (fun acc label => dictInsert acc label (calculate_probability expf ml text label)) d
      = d ++ labels.map (fun l => (l, calculate_probability expf ml text l)) := by
  induction labels generalizing d with
  | nil => simp
  | cons a as ih =>
    have hcond : d.any (fun p => p.1 == a) = false := by
      rw [List.any_eq_false]
      intro p hp
      simpa using hfresh a (by simp) p hp
    have hins : dictInsert d a (calculate_probability expf ml text a)
        = d ++ [(a, calculate_probability expf ml text a)] := by
      simp [dictInsert, hcond]
    have hfresh2 : ∀ l ∈ as, ∀ p ∈ d ++ [(a, calculate_probability expf ml text a)], p.1 ≠ l := by
      intro l hl p hp
      rcases List.mem_append.mp hp with hpd | hpa
      · exact hfresh l (List.mem_cons_of_mem a hl) p hpd
      · have hpe : p = (a, calculate_probability expf ml text a) := by simpa using hpa
        subst hpe
        intro hal
        have hal2 : a = l := hal
        exact (List.nodup_cons.mp hnd).1 (by rw [hal2]; exact hl)
    have hrec := ih (d ++ [(a, calculate_probability expf ml text a)]) hfresh2
      (List.nodup_cons.mp hnd).2
    simp only [List.foldl_cons, hins, hrec, List.map_cons]
    simp

/-- The second softmax output lies in `[0, 1]` whenever the exponential is
positive everywhere. -/
theorem softmax2_snd_bounds (expf : ℚ → ℚ) (hexp : ∀ x, 0 < expf x) (a b : ℚ) :
    0 ≤ (softmax2 expf a b).2 ∧ (softmax2 expf a b).2 ≤ 1 := by
  have ha := hexp a
  have hb := hexp b
  have hs : 0 < expf a + expf b := by linarith
  simp only [softmax2]
  constructor
  · exact div_nonneg hb.le hs.le
  · rw [div_le_one hs]
    linarith

/-- C8: for a single text and pairwise-distinct labels, `classify` returns
a dictionary whose keys are exactly the supplied labels in their supplied
order, where each label is mapped to the entailment probability produced
by `calculate_probability` (softmax over the entailment and contradiction
logits of the synthetic hypothesis), and every value lies in `[0, 1]`
whenever the softmax exponential is positive. -/
theorem C8_classify_keys_and_probs (expf : ℚ → ℚ)
    (ml : String → String → ℚ × ℚ × ℚ) (text : String) (labels : List String)
    (hexp : ∀ x, 0 < expf x) (hnd : labels.Nodup) :
    classifySingle expf ml text labels
      = labels.map (fun l => (l, calculate_probability expf ml text l)) ∧
    (classifySingle expf ml text labels).map Prod.fst = labels ∧
    ∀ p ∈ classifySingle expf ml text labels, 0 ≤ p.2 ∧ p.2 ≤ 1 := by
  have h1 : classifySingle expf ml text labels
      = labels.map (fun l => (l, calculate_probability expf ml text l)) := by
    simpa [classifySingle] using
      classify_foldl_fresh expf ml text labels [] (by simp) hnd
  refine ⟨h1, ?_, ?_⟩
  · rw [h1, List.map_map]
    exact List.map_id labels
  · rw [h1]
    intro p hp
    simp only [List.mem_map] at hp
    obtain ⟨l, _, rfl⟩ := hp
    simpa [calculate_probability] using
      softmax2_snd_bounds expf hexp (ml text ("This example is " ++ l ++ ".")).1
        (ml text ("This example is " ++ l ++ ".")).2.2

/-- Witness for C8 at `text = "I love pizza"`,
`labels = ["food", "weather"]`, a unit exponential and zero logits. -/
theorem C8_witness :
    (∀ x, 0 < constExp x) ∧ (["food", "weather"] : List String).Nodup ∧
    (classifySingle constExp zeroLogits "I love pizza" ["food", "weather"]
      = (["food", "weather"] : List String).map
          (fun l => (l, calculate_probability constExp zeroLogits "I love pizza" l)) ∧
     (classifySingle constExp zeroLogits "I love pizza" ["food", "weather"]).map Prod.fst
      = ["food", "weather"] ∧
     ∀ p ∈ classifySingle constExp zeroLogits "I love pizza" ["food", "weather"],
       0 ≤ p.2 ∧ p.2 ≤ 1) :=
  ⟨fun _ => one_pos, by decide,
    C8_classify_keys_and_probs constExp zeroLogits "I love pizza" ["food", "weather"]
      (fun _ => one_pos) (by decide)⟩

/-- C9: on a remote response whose `message` field is present and
non-empty, the text-generation call raises an error embedding that value
and returns no output; on a response without a `message` field it returns
the `output` field's value. -/
theorem C9_remote_response (res : TGResponse) :
    (∀ m, res.message = some m → m ≠ "" →
      handleTGResponse res = .raisedAPIError ("Failed to make API request: " ++ m)) ∧
    (∀ v, res.message = none → res.output = some v →
      handleTGResponse res = .returnedOutput v) := by
  constructor
  · intro m hm hne
    simp [handleTGResponse, truthyStr, hm, hne]
  · intro v hm hv
    simp [handleTGResponse, truthyStr, hm, hv]

/-- Witness for C9 on a failing and a successful concrete response. -/
theorem C9_witness :
    tgResFailed.message = some "invalid api key" ∧ "invalid api key" ≠ "" ∧
    handleTGResponse tgResFailed
      = .raisedAPIError ("Failed to make API request: " ++ "invalid api key") ∧
    tgResOk.message = none ∧ tgResOk.output = some "hello world" ∧
    handleTGResponse tgResOk = .returnedOutput "hello world" :=
  ⟨rfl, by decide,
    (C9_remote_response tgResFailed).1 "invalid api key" rfl (by decide),
    rfl, rfl, (C9_remote_response tgResOk).2 "hello world" rfl rfl⟩

/-- C10: when `params` lacks `input_text` (or has it but lacks
`output_text`), the facade's finetune returns `None` after printing a hint
and its outcome is independent of the model delegate — the delegate is
never invoked; when both keys are present the delegate's outcome decides
the result, and its `NotImplementedError` is re-raised with a message
naming the finetunable model variants. -/
theorem C10_finetune_key_guard (p : TGFinetuneParams) (d : DelegateBehavior) :
    (p.has_input_text = false →
      tgFinetune p d = .returnedNone .input_text ∧
      ∀ d2, tgFinetune p d2 = tgFinetune p d) ∧
    (p.has_input_text = true → p.has_output_text = false →
      tgFinetune p d = .returnedNone .output_text ∧
      ∀ d2, tgFinetune p d2 = tgFinetune p d) ∧
    (p.has_input_text = true → p.has_output_text = true →
      tgFinetune p .ok = .delegateReturned ∧
      tgFinetune p .notImplemented = .raisedNotImplemented
        ("This model does not support finetuning, try: " ++
          String.intercalate ", " FINETUNABLE_MODELS)) := by
  refine ⟨fun h1 => ⟨?_, fun d2 => ?_⟩, fun h1 h2 => ⟨?_, fun d2 => ?_⟩, fun h1 h2 => ⟨?_, ?_⟩⟩ <;>
    simp [tgFinetune, h1]
  any_goals simp [h2]

/-- Witness for C10: a call missing `input_text` returns `None`, and a
call with both keys on a non-finetunable delegate re-raises with the
remediation message. -/
theorem C10_witness :
    (({ has_input_text := false, has_output_text := true } : TGFinetuneParams).has_input_text = false) ∧
    tgFinetune { has_input_text := false, has_output_text := true } .ok = .returnedNone .input_text ∧
    (({ has_input_text := true, has_output_text := true } : TGFinetuneParams).has_input_text = true) ∧
    (({ has_input_text := true, has_output_text := true } : TGFinetuneParams).has_output_text = true) ∧
    tgFinetune { has_input_text := true, has_output_text := true } .notImplemented
      = .raisedNotImplemented
          ("This model does not support finetuning, try: " ++
            String.intercalate ", " FINETUNABLE_MODELS) :=
  ⟨rfl,
    ((C10_finetune_key_guard { has_input_text := false, has_output_text := true } .ok).1 rfl).1,
    rfl, rfl,
    ((C10_finetune_key_guard { has_input_text := true, has_output_text := true } .ok).2.2 rfl rfl).2⟩

end Backprop
